import Mathlib

/-!
# Verification of the TAC cases report data-processing core

A shallow embedding, in Lean 4, of the data-normalization and analytics
layer of the `tac_cases_report` repository (`tac_utils.py` and
`tac_data_processor.py`).  Text cells are modelled as `List Char`; Python
case folding, title-casing and whitespace stripping are modelled for the
ASCII range (all tokens appearing in the source are ASCII).  Machine floats
are modelled as exact rationals (`ℚ`); Python `round(x, 1)` is modelled as
round-half-to-even on rationals.  The external `dateutil` natural-language
date parser (a third-party library, not repository code) is a parameter
`du : List Char → Option PyDateTime` of every definition that reaches the
last-resort parsing branch; closed instances use the conservative model
`duNone` that recognizes nothing.
-/

namespace TacReport

/-! ## Characters and strings -/

/-- The characters of a string literal, the representation used for all
text cells. -/
def cs (s : String) : List Char := s.data

/-- Python `str.strip()` default whitespace set (ASCII part). -/
def isSpaceChar (c : Char) : Bool :=
  c.toNat = 32 ∨ c.toNat = 9 ∨ c.toNat = 10 ∨ c.toNat = 11 ∨ c.toNat = 12 ∨ c.toNat = 13

/-- ASCII model of Python `str.lower` on one character. -/
def lowerChar (c : Char) : Char :=
  if 65 ≤ c.toNat ∧ c.toNat ≤ 90 then Char.ofNat (c.toNat + 32) else c

/-- ASCII model of Python `str.upper` on one character. -/
def upperChar (c : Char) : Char :=
  if 97 ≤ c.toNat ∧ c.toNat ≤ 122 then Char.ofNat (c.toNat - 32) else c

/-- ASCII alphabetic character (the "cased/alphabetic" notion used by
Python `str.title` on ASCII input). -/
def isAlphaChar (c : Char) : Bool :=
  (65 ≤ c.toNat ∧ c.toNat ≤ 90) ∨ (97 ≤ c.toNat ∧ c.toNat ≤ 122)

/-- ASCII digit. -/
def isDigitChar (c : Char) : Bool := 48 ≤ c.toNat ∧ c.toNat ≤ 57

def digitVal (c : Char) : Nat := c.toNat - 48

/-- Python `str.lower`. -/
def strLower (s : List Char) : List Char := s.map lowerChar

/-- Python `str.upper`. -/
def strUpper (s : List Char) : List Char := s.map upperChar

/-- Python `str.strip()`. -/
def stripChars (s : List Char) : List Char :=
  ((s.dropWhile isSpaceChar).reverse.dropWhile isSpaceChar).reverse

/-- Python `str.title` (ASCII model): a letter after a non-letter is
uppercased, a letter after a letter is lowercased. -/
def titleAux : Bool → List Char → List Char
  | _, [] => []
  | prevAlpha, c :: rest =>
    if isAlphaChar c then
      (if prevAlpha then lowerChar c else upperChar c) :: titleAux true rest
    else
      c :: titleAux false rest

def pyTitle (s : List Char) : List Char := titleAux false s

/-- `listStarts p s` : does `s` start with `p` (Python `str.startswith`)? -/
def listStarts : List Char → List Char → Bool
  | [], _ => true
  | _ :: _, [] => false
  | p :: ps, c :: rest => p = c && listStarts ps rest

/-- Python substring containment (`p in s`). -/
def containsSub (p : List Char) : List Char → Bool
  | [] => listStarts p []
  | c :: rest => listStarts p (c :: rest) || containsSub p rest

/-! ## Tallies (Python `dict` counters / `value_counts`)

A `Counter`/`value_counts` result is modelled as an insertion-ordered
association list from key to count (`value_counts` sorts by descending
count for display; none of the verified claims depend on entry order, and
the multiset of (key, count) pairs is the same). -/

def tallyInsert (k : List Char) : List (List Char × Nat) → List (List Char × Nat)
  | [] => [(k, 1)]
  | (k2, n) :: rest => if k = k2 then (k2, n + 1) :: rest else (k2, n) :: tallyInsert k rest

def tallyList (l : List (List Char)) : List (List Char × Nat) :=
  l.foldl (fun acc k => tallyInsert k acc) []

def sumSnd (t : List (List Char × Nat)) : Nat := (t.map Prod.snd).sum

/-- First-match association-list lookup (Python `dict.get`). -/
def assocLookup (m : List (List Char × List Char)) (k : List Char) : Option (List Char) :=
  match m with
  | [] => none
  | (k2, v) :: rest => if k2 = k then some v else assocLookup rest k

def hasKey (m : List (List Char × List Char)) (k : List Char) : Bool :=
  m.any (fun p => p.1 = k)

/-! ## `tac_utils.clean_text` -/

/-- `tac_utils.clean_text`: null-like tokens collapse to the sentinel
`"N/A"`, everything else is whitespace-stripped. -/
def clean_text (s : List Char) : List Char :=
  if s = [] ∨ strLower s ∈ [cs "nan", cs "none", cs "null"] then cs "N/A"
  else
    let t := stripChars s
    if strLower t ∈ [cs "no value", cs "not available", cs "na", cs "n/a", cs ""] then cs "N/A"
    else t

/-! ## `tac_utils.normalize_severity` -/

/-- The `severity_mapping` literal of `tac_utils.normalize_severity`. -/
def severityMapping : List (List Char × List Char) :=
  [ (cs "1", cs "1 - Critical"), (cs "critical", cs "1 - Critical"),
    (cs "1 - critical", cs "1 - Critical"),
    (cs "2", cs "2 - High"), (cs "high", cs "2 - High"), (cs "2 - high", cs "2 - High"),
    (cs "3", cs "3 - Medium"), (cs "medium", cs "3 - Medium"),
    (cs "3 - medium", cs "3 - Medium"),
    (cs "4", cs "4 - Low"), (cs "low", cs "4 - Low"), (cs "4 - low", cs "4 - Low") ]

/-- The null-like guard of `normalize_severity`. -/
def severityNullish (s : List Char) : Prop :=
  s = [] ∨ strLower s ∈ [cs "nan", cs "none", cs "null", cs "no value"]

instance (s : List Char) : Decidable (severityNullish s) := by
  unfold severityNullish; infer_instance

/-- `tac_utils.normalize_severity`. -/
def normalize_severity (s : List Char) : List Char :=
  if severityNullish s then cs "Unknown"
  else
    let sev := strLower (clean_text s)
    let normalized := (assocLookup severityMapping sev).getD sev
    pyTitle normalized

/-- The four canonical severity labels. -/
def canonicalSeverities : List (List Char) :=
  [cs "1 - Critical", cs "2 - High", cs "3 - Medium", cs "4 - Low"]

/-! ## Calendar timestamps (`datetime.datetime`) -/

/-- A Python `datetime.datetime` value (no timezone, microseconds unused by
the repository's parsers). -/
structure PyDateTime where
  year : Nat
  month : Nat
  day : Nat
  hour : Nat
  minute : Nat
  second : Nat
deriving DecidableEq, Repr

def isLeapYear (y : Nat) : Bool := y % 4 = 0 ∧ (y % 100 ≠ 0 ∨ y % 400 = 0)

def daysInMonth (y m : Nat) : Nat :=
  if m = 2 then (if isLeapYear y then 29 else 28)
  else if m ∈ [4, 6, 9, 11] then 30 else 31

/-- Days in the years before year `y` (Python `datetime._days_before_year`). -/
def daysBeforeYear (y : Nat) : Nat :=
  (y - 1) * 365 + (y - 1) / 4 - (y - 1) / 100 + (y - 1) / 400

/-- Days in the months of year `y` strictly before month `m`. -/
def daysBeforeMonth (y m : Nat) : Nat :=
  (List.range m).foldl (fun acc k => if 1 ≤ k then acc + daysInMonth y k else acc) 0

/-- Proleptic-Gregorian ordinal of a date (Python `datetime.toordinal`). -/
def toOrdinal (d : PyDateTime) : Nat :=
  daysBeforeYear d.year + daysBeforeMonth d.year d.month + d.day

/-- Seconds since the epoch of day 0; datetime comparison and subtraction
both factor through this index. -/
def secondsIndex (d : PyDateTime) : Nat :=
  toOrdinal d * 86400 + d.hour * 3600 + d.minute * 60 + d.second

/-- `(b - a).days` of Python datetime subtraction (`timedelta` keeps a
floored day count). -/
def tdDays (a b : PyDateTime) : Int :=
  Int.fdiv ((secondsIndex b : Int) - (secondsIndex a : Int)) 86400

/-- `(b - a).total_seconds()` of Python datetime subtraction. -/
def tdTotalSeconds (a b : PyDateTime) : Int :=
  (secondsIndex b : Int) - (secondsIndex a : Int)

/-- Python `datetime` `<` comparison (strict, lexicographic on fields). -/
def dtLt (a b : PyDateTime) : Bool := secondsIndex a < secondsIndex b

/-- Python `min` over a nonempty list (keeps the first minimum). -/
def listMinDT (d : PyDateTime) (ds : List PyDateTime) : PyDateTime :=
  ds.foldl (fun m x => if dtLt x m then x else m) d

/-- Python `max` over a nonempty list (keeps the first maximum). -/
def listMaxDT (d : PyDateTime) (ds : List PyDateTime) : PyDateTime :=
  ds.foldl (fun m x => if dtLt m x then x else m) d

/-! ## `datetime.strptime` for the fixed format list of
`tac_utils.parse_date_flexible`

Each format string is a token list; numeric directives carry the ordered
width/range alternatives of CPython's `_strptime` regular expressions
(two-digit form first, then bare one-digit form), tried with
backtracking exactly as the compiled regex would. -/

inductive FmtTok where
  | lit (c : Char)
  | dY | dm | dd | dH | dI | dM | dS | dp
deriving DecidableEq, Repr

/-- Partially filled `struct_time` during a `strptime` run (CPython
defaults: year 1900, month 1, day 1, midnight). -/
structure TP where
  y : Nat := 1900
  mo : Nat := 1
  da : Nat := 1
  h : Nat := 0
  mi : Nat := 0
  s : Nat := 0
  i12 : Option Nat := none
  isPM : Option Bool := none
deriving Repr

/-- Consume exactly `w` digit characters, returning their value. -/
def takeDigits : Nat → List Char → Option (Nat × List Char)
  | 0, s => some (0, s)
  | _ + 1, [] => none
  | w + 1, c :: rest =>
    if isDigitChar c then
      match takeDigits w rest with
      | some (n, r) => some (digitVal c * 10 ^ w + n, r)
      | none => none
    else none

def applyNum (tok : FmtTok) (n : Nat) (st : TP) : TP :=
  match tok with
  | .dY => { st with y := n }
  | .dm => { st with mo := n }
  | .dd => { st with da := n }
  | .dH => { st with h := n }
  | .dI => { st with i12 := some n }
  | .dM => { st with mi := n }
  | .dS => { st with s := n }
  | _ => st

/-- Two-digit value range of each numeric directive, from CPython
`_strptime.TimeRE` (for example `%d` compiles to
`3[01]|[12]\d|0[1-9]|[1-9]`, whose two-digit alternatives cover 01..31). -/
def altRange2 : FmtTok → Nat × Nat
  | .dm => (1, 12)
  | .dd => (1, 31)
  | .dH => (0, 23)
  | .dI => (1, 12)
  | .dM => (0, 59)
  | .dS => (0, 61)
  | _ => (1, 0)

/-- One-digit value range of each numeric directive. -/
def altRange1 : FmtTok → Nat × Nat
  | .dm => (1, 9)
  | .dd => (1, 9)
  | .dH => (0, 9)
  | .dI => (1, 9)
  | .dM => (0, 9)
  | .dS => (0, 9)
  | _ => (1, 0)

/-- Backtracking matcher for one format against the whole input string
(CPython compiles the format to a regex and requires the match to span the
entire string; each numeric directive tries its two-digit alternatives
first, then its bare one-digit alternative, backtracking on failure of the
rest of the format). -/
def parseToks : List FmtTok → List Char → TP → Option TP
  | [], s, st => if s = [] then some st else none
  | tok :: fs, s, st =>
    match tok with
    | .lit c =>
      match s with
      | x :: xs => if x = c then parseToks fs xs st else none
      | [] => none
    | .dp =>
      match s with
      | a :: b :: rest =>
        if lowerChar a = 'a' ∧ lowerChar b = 'm' then
          parseToks fs rest { st with isPM := some false }
        else if lowerChar a = 'p' ∧ lowerChar b = 'm' then
          parseToks fs rest { st with isPM := some true }
        else none
      | _ => none
    | .dY =>
      match takeDigits 4 s with
      | some (n, rest) => parseToks fs rest (applyNum .dY n st)
      | none => none
    | t =>
      let r2 :=
        match takeDigits 2 s with
        | some (n, rest) =>
          if (altRange2 t).1 ≤ n ∧ n ≤ (altRange2 t).2 then
            parseToks fs rest (applyNum t n st)
          else none
        | none => none
      match r2 with
      | some r => some r
      | none =>
        match takeDigits 1 s with
        | some (n, rest) =>
          if (altRange1 t).1 ≤ n ∧ n ≤ (altRange1 t).2 then
            parseToks fs rest (applyNum t n st)
          else none
        | none => none

/-- Post-match validation and 12-hour clock resolution, as in CPython
`_strptime` followed by the `datetime` constructor (an invalid calendar
date raises `ValueError`, surfacing as `none` here). -/
def finalizeTP (st : TP) : Option PyDateTime :=
  let hour :=
    match st.i12, st.isPM with
    | some i, some true => if i ≠ 12 then i + 12 else 12
    | some i, _ => if i = 12 then 0 else i
    | none, _ => st.h
  if 1 ≤ st.y ∧ st.y ≤ 9999 ∧ st.da ≤ daysInMonth st.y st.mo then
    some ⟨st.y, st.mo, st.da, hour, st.mi, st.s⟩
  else none

/-- The eleven formats of `parse_date_flexible.common_formats`, in order. -/
def commonFormats : List (List FmtTok) :=
  [ -- "%m/%d/%Y %I:%M %p"
    [.dm, .lit '/', .dd, .lit '/', .dY, .lit ' ', .dI, .lit ':', .dM, .lit ' ', .dp],
    -- "%m/%d/%Y %H:%M:%S"
    [.dm, .lit '/', .dd, .lit '/', .dY, .lit ' ', .dH, .lit ':', .dM, .lit ':', .dS],
    -- "%m/%d/%Y"
    [.dm, .lit '/', .dd, .lit '/', .dY],
    -- "%Y-%m-%d %H:%M:%S"
    [.dY, .lit '-', .dm, .lit '-', .dd, .lit ' ', .dH, .lit ':', .dM, .lit ':', .dS],
    -- "%Y-%m-%d"
    [.dY, .lit '-', .dm, .lit '-', .dd],
    -- "%d/%m/%Y %H:%M:%S"
    [.dd, .lit '/', .dm, .lit '/', .dY, .lit ' ', .dH, .lit ':', .dM, .lit ':', .dS],
    -- "%d/%m/%Y"
    [.dd, .lit '/', .dm, .lit '/', .dY],
    -- "%Y/%m/%d %H:%M:%S"
    [.dY, .lit '/', .dm, .lit '/', .dd, .lit ' ', .dH, .lit ':', .dM, .lit ':', .dS],
    -- "%Y/%m/%d"
    [.dY, .lit '/', .dm, .lit '/', .dd],
    -- "%m-%d-%Y %H:%M:%S"
    [.dm, .lit '-', .dd, .lit '-', .dY, .lit ' ', .dH, .lit ':', .dM, .lit ':', .dS],
    -- "%m-%d-%Y"
    [.dm, .lit '-', .dd, .lit '-', .dY] ]

/-- Try each format in order; first successful `strptime` wins. -/
def firstFormatParse : List (List FmtTok) → List Char → Option PyDateTime
  | [], _ => none
  | f :: fsx, t =>
    match parseToks f t {} with
    | some st =>
      match finalizeTP st with
      | some d => some d
      | none => firstFormatParse fsx t
    | none => firstFormatParse fsx t

/-- `tac_utils.parse_date_flexible` (the callers in the data processor pass
no explicit `date_format`).  `du` models the external
`dateutil.parser.parse` last-resort branch: it returns `some` on success
and `none` where the library would raise. -/
def parse_date_flexible (du : List Char → Option PyDateTime) (s : List Char) :
    Option PyDateTime :=
  if s = [] ∨ strLower s ∈ [cs "nan", cs "none", cs "null", cs ""] then none
  else
    let t := stripChars s
    match firstFormatParse commonFormats t with
    | some d => some d
    | none => du t

/-- Modelled from the spec: the last-resort "general-purpose
natural-language date parser" is the external `dateutil` library, absent
from the repository; closed instances use this conservative model on which
the library branch recognizes nothing. -/
def duNone : List Char → Option PyDateTime := fun _ => none

/-! ## `TACDataProcessor._parse_resolution_time` -/

mutual
/-- `re.search(r"(\d+)<target>", s)`: scan for the first maximal digit run
immediately followed by `target`, returning its value. -/
def scanNum (target : Char) : List Char → Option Nat
  | [] => none
  | c :: rest =>
    if isDigitChar c then scanInRun target (digitVal c) rest
    else scanNum target rest

def scanInRun (target : Char) (acc : Nat) : List Char → Option Nat
  | [] => none
  | c :: rest =>
    if isDigitChar c then scanInRun target (acc * 10 + digitVal c) rest
    else if c = target then some acc
    else scanNum target rest
end

/-- `TACDataProcessor._parse_resolution_time`: total minutes of a duration
string such as `"12d 3h 33m"` (the Python function returns this integer
total as a float). -/
def parse_resolution_time (s : List Char) : Nat :=
  let t := stripChars (strLower s)
  (scanNum 'd' t).getD 0 * 24 * 60 + (scanNum 'h' t).getD 0 * 60 + (scanNum 'm' t).getD 0

/-! ## Bug classification (`_is_bug_case`, `_extract_bug_type`) -/

/-- Case-insensitive search for `pat` followed by at least one digit
(`re.search(pat + r"-\d+", v, re.IGNORECASE)` with `pat` the literal
prefix): `patAt` matches at the head, `patSearch` anywhere. -/
def patAt : List Char → List Char → Bool
  | [], s => match s with
    | c :: _ => isDigitChar c
    | [] => false
  | p :: ps, c :: rest => p = lowerChar c && patAt ps rest
  | _ :: _, [] => false

def patSearch (p : List Char) : List Char → Bool
  | [] => false
  | c :: rest => patAt p (c :: rest) || patSearch p rest

/-- Does the value match one of `AL-\d+`, `CYCON-\d+`, `BUG-\d+`,
`DEF-\d+` (case-insensitively)? -/
def matchesAnyBugPattern (v : List Char) : Bool :=
  patSearch (cs "al-") v || patSearch (cs "cycon-") v ||
  patSearch (cs "bug-") v || patSearch (cs "def-") v

/-- `TACDataProcessor._is_bug_case`. -/
def is_bug_case (v : List Char) : Bool :=
  if v = [] ∨ strLower v ∈ [cs "n/a", cs "no value", cs "none", cs ""] then false
  else matchesAnyBugPattern v

/-- `TACDataProcessor._extract_bug_type`. -/
def extract_bug_type (v : List Char) : Option (List Char) :=
  if v = [] then none
  else if listStarts (cs "AL-") (strUpper v) then some (cs "Alteon")
  else if listStarts (cs "CYCON-") (strUpper v) then some (cs "CyberController")
  else if listStarts (cs "DP-") (strUpper v) then some (cs "DefensePro")
  else if containsSub (cs "BUG-") (strUpper v) || containsSub (cs "DEF-") (strUpper v) then
    some (cs "General")
  else some (cs "Other")

/-! ## Column mapping (`_create_column_mapping`, `_validate_columns`,
`_find_alternative_columns`) -/

/-- The `expected_columns` synonym table of `TACDataProcessor.__init__`,
in declaration order. -/
def expected_columns : List (List Char × List (List Char)) :=
  [ (cs "reference", [cs "Reference #", cs "Reference", cs "Case #", cs "Case Number", cs "Ticket #"]),
    (cs "subject", [cs "Subject", cs "Title", cs "Summary", cs "Description"]),
    (cs "status", [cs "Status", cs "Case Status", cs "State"]),
    (cs "date_created", [cs "Date Created", cs "Created Date", cs "Created", cs "Open Date"]),
    (cs "queue", [cs "Queue", cs "Team", cs "Group", cs "Assignment Group"]),
    (cs "internal_case", [cs "Internal Case", cs "Internal", cs "Is Internal"]),
    (cs "end_customer", [cs "End Customer", cs "Customer", cs "Company", cs "Organization"]),
    (cs "full_name", [cs "Full Name", cs "Name", cs "Contact Name", cs "Engineer Name"]),
    (cs "email", [cs "Email Address", cs "Email", cs "Contact Email"]),
    (cs "date_responded", [cs "Date Last Responded", cs "Last Response", cs "Last Updated"]),
    (cs "assigned_account", [cs "Assigned Account", cs "Assigned Engineer", cs "Owner"]),
    (cs "product_hierarchy", [cs "Product Hierarchy", cs "Product", cs "Product Line"]),
    (cs "product_version", [cs "Product_Version", cs "Version", cs "Product Version"]),
    (cs "jira_case", [cs "Jira Case", cs "Jira", cs "Jira Ticket"]),
    (cs "nfr", [cs "NFR", cs "Enhancement Request"]),
    (cs "severity", [cs "Severity", cs "Priority", cs "Urgency"]),
    (cs "jira_bug", [cs "Jira Bug", cs "Bug", cs "Bug ID"]),
    (cs "experienced_bug", [cs "Experienced Bug", cs "Known Bug", cs "Bug Found"]),
    (cs "related_case", [cs "Similar/Related Case", cs "Related Cases", cs "Similar Cases"]),
    (cs "category", [cs "Category", cs "Case Category", cs "Issue Category"]),
    (cs "resolution_code_1", [cs "Resolution Code 1", cs "Resolution Code", cs "Primary Resolution"]),
    (cs "resolution_time", [cs "Resolution Time", cs "Resolution Time ", cs "Time to Resolution", cs "TTR"]) ]

/-- For one semantic field, scan the synonym variants in priority order;
for each, take the first actual column whose stripped, lowered name equals
the lowered variant. -/
def exactMatchFor (variants : List (List Char)) (actuals : List (List Char)) :
    Option (List Char) :=
  match variants with
  | [] => none
  | v :: vs =>
    match actuals.find? (fun a => strLower (stripChars a) = strLower v) with
    | some a => some a
    | none => exactMatchFor vs actuals

/-- One step of the `_create_column_mapping` loop: record the first
matching actual column for the semantic field `kv`, if any. -/
def mapStep (actuals : List (List Char)) (acc : List (List Char × List Char))
    (kv : List Char × List (List Char)) : List (List Char × List Char) :=
  match exactMatchFor kv.2 actuals with
  | some a => acc ++ [(kv.1, a)]
  | none => acc

/-- `TACDataProcessor._create_column_mapping`: the insertion-ordered
mapping dict after the exact-synonym phase. -/
def create_column_mapping (actuals : List (List Char)) :
    List (List Char × List Char) :=
  expected_columns.foldl (mapStep actuals) []

/-- The keyword fallback of `_find_alternative_columns`: first actual
column whose lowered name contains one of the given words. -/
def fallbackFind (words : List (List Char)) (actuals : List (List Char)) :
    Option (List Char) :=
  actuals.find? (fun c => words.any (fun w => containsSub w (strLower c)))

def addFallback (m : List (List Char × List Char)) (actuals : List (List Char))
    (key : List Char) (words : List (List Char)) : List (List Char × List Char) :=
  if hasKey m key then m
  else
    match fallbackFind words actuals with
    | some c => m ++ [(key, c)]
    | none => m

/-- `_validate_columns` + `_find_alternative_columns`: looser keyword
fallback for the unmapped essential fields, in the order `reference`,
`status`, `date_created`. -/
def find_alternative_columns (m : List (List Char × List Char))
    (actuals : List (List Char)) : List (List Char × List Char) :=
  let m1 := addFallback m actuals (cs "reference")
    [cs "case", cs "ticket", cs "ref", cs "#"]
  let m2 := addFallback m1 actuals (cs "status") [cs "status", cs "state"]
  addFallback m2 actuals (cs "date_created") [cs "date", cs "created", cs "open"]

/-- The full column mapping built by `load_and_analyze`: exact-synonym
phase followed by the essential-field fallback. -/
def column_mapping (actuals : List (List Char)) : List (List Char × List Char) :=
  find_alternative_columns (create_column_mapping actuals) actuals

/-! ## Analytics engine

Each `_get_*` analysis reads, for every row, the cell of the column its
semantic field is mapped to.  An analysis is therefore embedded as a
function of (a) the mapping-presence flags of the fields it consults and
(b) the per-row cell values of those columns (`List (List Char)`, one
entry per table row, or tuples for analyses reading several columns). -/

/-- `_get_severity_analysis` result. -/
structure SeverityAnalysis where
  available : Bool
  counts : List (List Char × Nat)
  percentages : List (List Char × ℚ)
  total : Nat
  reason : Option (List Char)
deriving DecidableEq, Repr

/-- Python `round(x, 1)` on the exact rational model: half-to-even at one
decimal place. -/
def roundHalfEvenZ (q : ℚ) : ℤ :=
  let f := ⌊q⌋
  if q - f < 1/2 then f
  else if (1 : ℚ)/2 < q - f then f + 1
  else if f % 2 = 0 then f else f + 1

def round1 (q : ℚ) : ℚ := (roundHalfEvenZ (q * 10) : ℚ) / 10

/-- `TACDataProcessor._get_severity_analysis` over the severity column's
cell values (already normalized by `_clean_data`). -/
def get_severity_analysis (mapped : Bool) (col : List (List Char)) :
    SeverityAnalysis :=
  if mapped then
    let counts := tallyList col
    let total := sumSnd counts
    { available := true
      counts := counts
      percentages := counts.map (fun p => (p.1, round1 ((p.2 : ℚ) / (total : ℚ) * 100)))
      total := total
      reason := none }
  else
    { available := false, counts := [], percentages := [], total := 0
      reason := some (cs "No severity column found") }

/-- `_get_bug_analysis` result (the per-row detail records carry the raw
cleaned bug value; the other detail fields live in columns no claim
consults). -/
structure BugAnalysis where
  available : Bool
  bug_cases : Nat
  non_bug_cases : Nat
  bug_types : List (List Char × Nat)
  bug_cases_details : List (List Char)
  bug_percentage : ℚ
  reason : Option (List Char)
deriving DecidableEq, Repr

/-- `TACDataProcessor._get_bug_analysis` over the experienced-bug column's
raw cell values (the loop applies `clean_text` to each). -/
def get_bug_analysis (mapped : Bool) (col : List (List Char)) : BugAnalysis :=
  if mapped then
    let cleaned := col.map clean_text
    let bugVals := cleaned.filter is_bug_case
    let bugCases := bugVals.length
    let nonBug := (cleaned.filter (fun v => ¬ is_bug_case v)).length
    { available := true
      bug_cases := bugCases
      non_bug_cases := nonBug
      bug_types := tallyList (bugVals.filterMap extract_bug_type)
      bug_cases_details := bugVals
      bug_percentage :=
        if 0 < bugCases + nonBug then
          round1 ((bugCases : ℚ) / ((bugCases + nonBug : Nat) : ℚ) * 100)
        else 0
      reason := none }
  else
    { available := false, bug_cases := 0, non_bug_cases := 0, bug_types := []
      bug_cases_details := [], bug_percentage := 0
      reason := some (cs "No experienced bug column found") }

/-- `_get_customer_analysis` result: `available` is set unconditionally,
each breakdown appears only when its column is mapped. -/
structure CustomerAnalysis where
  available : Bool
  customer_counts : Option (List (List Char × Nat))
  engineer_counts : Option (List (List Char × Nat))
deriving DecidableEq, Repr

/-- `TACDataProcessor._get_customer_analysis`. -/
def get_customer_analysis (custMapped nameMapped : Bool)
    (custCol nameCol : List (List Char)) : CustomerAnalysis :=
  { available := true
    customer_counts := if custMapped then some (tallyList custCol) else none
    engineer_counts := if nameMapped then some (tallyList nameCol) else none }

/-- Result record shared by the simple tally-based analyses
(`_get_internal_external_analysis`, `_get_queue_analysis`,
`_get_status_analysis`). -/
structure CountsAnalysis where
  available : Bool
  counts : List (List Char × Nat)
  reason : Option (List Char)
deriving DecidableEq, Repr

def mkCountsAnalysis (mapped : Bool) (col : List (List Char)) (why : List Char) :
    CountsAnalysis :=
  if mapped then { available := true, counts := tallyList col, reason := none }
  else { available := false, counts := [], reason := some why }

/-- `TACDataProcessor._get_internal_external_analysis`. -/
def get_internal_external_analysis (mapped : Bool) (col : List (List Char)) :
    CountsAnalysis :=
  mkCountsAnalysis mapped col (cs "No internal case column found")

/-- `TACDataProcessor._get_queue_analysis`. -/
def get_queue_analysis (mapped : Bool) (col : List (List Char)) : CountsAnalysis :=
  mkCountsAnalysis mapped col (cs "No queue column found")

/-- `TACDataProcessor._get_status_analysis`. -/
def get_status_analysis (mapped : Bool) (col : List (List Char)) : CountsAnalysis :=
  mkCountsAnalysis mapped col (cs "No status column found")

/-- Nested per-key status breakdown used by `_get_engineer_assignment` and
`_get_case_owner_assignment`: for each distinct value of the primary
column, the status tally of the rows holding that value. -/
def nestedStatusBreakdown (rows : List (List Char × List Char)) :
    List (List Char × List (List Char × Nat)) :=
  (tallyList (rows.map Prod.fst)).map
    (fun p => (p.1, tallyList ((rows.filter (fun r => r.1 = p.1)).map Prod.snd)))

structure AssignAnalysis where
  available : Bool
  case_counts : List (List Char × Nat)
  status_breakdown : List (List Char × List (List Char × Nat))
  reason : Option (List Char)
deriving DecidableEq, Repr

def mkAssignAnalysis (mapped statusMapped : Bool)
    (rows : List (List Char × List Char)) (why : List Char) : AssignAnalysis :=
  if mapped then
    { available := true
      case_counts := tallyList (rows.map Prod.fst)
      status_breakdown := if statusMapped then nestedStatusBreakdown rows else []
      reason := none }
  else { available := false, case_counts := [], status_breakdown := [], reason := some why }

/-- `TACDataProcessor._get_engineer_assignment` over (assigned account,
status) row pairs. -/
def get_engineer_assignment (mapped statusMapped : Bool)
    (rows : List (List Char × List Char)) : AssignAnalysis :=
  mkAssignAnalysis mapped statusMapped rows (cs "No assigned account column found")

/-- `TACDataProcessor._get_case_owner_assignment` over (full name, status)
row pairs. -/
def get_case_owner_assignment (mapped statusMapped : Bool)
    (rows : List (List Char × List Char)) : AssignAnalysis :=
  mkAssignAnalysis mapped statusMapped rows (cs "No case owner/full name column found")

/-- `TACDataProcessor._get_product_analysis` result. -/
structure ProductAnalysis where
  available : Bool
  product_counts : List (List Char × Nat)
  version_analysis : List (List Char × List (List Char × Nat))
  reason : Option (List Char)
deriving DecidableEq, Repr

/-- `TACDataProcessor._get_product_analysis` over (product hierarchy,
product version) row pairs. -/
def get_product_analysis (mapped versionMapped : Bool)
    (rows : List (List Char × List Char)) : ProductAnalysis :=
  if mapped then
    let counts := tallyList (rows.map Prod.fst)
    { available := true
      product_counts := counts
      version_analysis :=
        if versionMapped then
          counts.map (fun p =>
            (p.1, tallyList ((rows.filter (fun r => r.1 = p.1)).map Prod.snd)))
        else []
      reason := none }
  else
    { available := false, product_counts := [], version_analysis := []
      reason := some (cs "No product hierarchy column found") }

/-- `TACDataProcessor._is_no_value`. -/
def is_no_value (v : List Char) : Bool :=
  if v = [] then true
  else
    stripChars (strLower v) ∈
      [cs "no value", cs "n/a", cs "na", cs "none", cs "null", cs "empty",
       cs "", cs "no data", cs "not available", cs "not applicable"]

/-- `_get_escalation_analysis` result. -/
structure EscalationAnalysis where
  available : Bool
  not_escalated : Nat
  escalated : Nat
  escalated_topn : Nat
  reason : Option (List Char)
deriving DecidableEq, Repr

/-- `TACDataProcessor._get_escalation_analysis` over the Jira-case
column's raw cell values (the loop applies `clean_text` to each). -/
def get_escalation_analysis (mapped : Bool) (col : List (List Char)) :
    EscalationAnalysis :=
  if mapped then
    let cleaned := col.map clean_text
    { available := true
      not_escalated := (cleaned.filter is_no_value).length
      escalated_topn :=
        (cleaned.filter (fun v => ¬ is_no_value v ∧ containsSub (cs "topn") (strLower v))).length
      escalated :=
        (cleaned.filter (fun v => ¬ is_no_value v ∧ ¬ containsSub (cs "topn") (strLower v))).length
      reason := none }
  else
    { available := false, not_escalated := 0, escalated := 0, escalated_topn := 0
      reason := some (cs "No Jira Case column found.") }

/-- Result record shared by `_get_category_analysis` and
`_get_resolution_analysis`, whose availability also depends on the data. -/
structure FilteredCountsAnalysis where
  available : Bool
  counts : List (List Char × Nat)
  reason : Option (List Char)
deriving DecidableEq, Repr

/-- The cleaned cells kept by the category/resolution loops
(`if category and category != 'N/A'`). -/
def validCells (col : List (List Char)) : List (List Char) :=
  (col.map clean_text).filter (fun v => v ≠ [] ∧ v ≠ cs "N/A")

def mkFilteredCounts (mapped : Bool) (col : List (List Char))
    (whyMissing whyEmpty : List Char) : FilteredCountsAnalysis :=
  if mapped then
    match validCells col with
    | [] => { available := false, counts := [], reason := some whyEmpty }
    | _ => { available := true, counts := tallyList (validCells col), reason := none }
  else { available := false, counts := [], reason := some whyMissing }

/-- `TACDataProcessor._get_category_analysis`. -/
def get_category_analysis (mapped : Bool) (col : List (List Char)) :
    FilteredCountsAnalysis :=
  mkFilteredCounts mapped col (cs "No Category column found")
    (cs "No valid category data found")

/-- `TACDataProcessor._get_resolution_analysis`. -/
def get_resolution_analysis (mapped : Bool) (col : List (List Char)) :
    FilteredCountsAnalysis :=
  mkFilteredCounts mapped col (cs "No Resolution Code 1 column found")
    (cs "No valid resolution data found")

/-! ## Date-dependent analyses -/

def natToDigits (n : Nat) : List Char :=
  (Nat.toDigits 10 n)

/-- Zero-pad a numeral to at least `w` characters. -/
def padNat (w n : Nat) : List Char :=
  let d := natToDigits n
  List.replicate (w - d.length) '0' ++ d

/-- `strftime("%Y-%m")` month bucket. -/
def monthKey (d : PyDateTime) : List Char :=
  padNat 4 d.year ++ [Char.ofNat 45] ++ padNat 2 d.month

/-- `_get_monthly_trends` result. -/
structure MonthlyTrends where
  available : Bool
  monthly_counts : List (List Char × Nat)
  monthly_status : List (List Char × List (List Char × Nat))
  monthly_severity : List (List Char × List (List Char × Nat))
  reason : Option (List Char)
deriving DecidableEq, Repr

/-- The rows of a table that reach the body of the monthly-trends loop:
date string non-`"nan"`, nonempty, and successfully parsed, keyed by month
bucket, paired with the row's (status, severity) cells. -/
def monthlyRows (du : List Char → Option PyDateTime)
    (rows : List (List Char × List Char × List Char)) :
    List (List Char × List Char × List Char) :=
  rows.filterMap (fun r =>
    if r.1 ≠ [] ∧ r.1 ≠ cs "nan" then
      match parse_date_flexible du r.1 with
      | some d => some (monthKey d, r.2.1, r.2.2)
      | none => none
    else none)

def crossTally (l : List (List Char × List Char)) :
    List (List Char × List (List Char × Nat)) :=
  (tallyList (l.map Prod.fst)).map
    (fun p => (p.1, tallyList ((l.filter (fun r => r.1 = p.1)).map Prod.snd)))

/-- `TACDataProcessor._get_monthly_trends` over (date string, status cell,
severity cell) rows. -/
def get_monthly_trends (dateMapped statusMapped severityMapped : Bool)
    (du : List Char → Option PyDateTime)
    (rows : List (List Char × List Char × List Char)) : MonthlyTrends :=
  if dateMapped then
    let mr := monthlyRows du rows
    { available := true
      monthly_counts := tallyList (mr.map Prod.fst)
      monthly_status :=
        if statusMapped then crossTally (mr.map (fun r => (r.1, clean_text r.2.1))) else []
      monthly_severity :=
        if severityMapped then crossTally (mr.map (fun r => (r.1, clean_text r.2.2))) else []
      reason := none }
  else
    { available := false, monthly_counts := [], monthly_status := []
      monthly_severity := [], reason := some (cs "No date created column found") }

/-- `_get_date_range` result. -/
structure DateRange where
  start : Option PyDateTime
  stop : Option PyDateTime
  days : Int
deriving DecidableEq, Repr

/-- The successfully parsed dates of the date-created column
(`_get_date_range`'s `dates` list). -/
def parsedDates (du : List Char → Option PyDateTime) (col : List (List Char)) :
    List PyDateTime :=
  col.filterMap (fun s => if s ≠ cs "nan" then parse_date_flexible du s else none)

/-- `TACDataProcessor._get_date_range`. -/
def get_date_range (mapped : Bool) (du : List Char → Option PyDateTime)
    (col : List (List Char)) : DateRange :=
  if mapped then
    match parsedDates du col with
    | [] => { start := none, stop := none, days := 0 }
    | d :: ds =>
      let s := listMinDT d ds
      let e := listMaxDT d ds
      { start := some s, stop := some e, days := tdDays s e + 1 }
  else { start := none, stop := none, days := 0 }

/-- `_get_response_time_analysis` result. -/
structure ResponseTimeAnalysis where
  available : Bool
  avg_response_hours : ℚ
  avg_response_days : ℚ
  total_cases_with_response : Nat
  reason : Option (List Char)
deriving DecidableEq, Repr

/-- The elapsed hours of the rows that enter the response-time average:
both cells nonempty and non-`"nan"`, both parseable, response strictly
after creation. -/
def responseTimePairs (du : List Char → Option PyDateTime)
    (rows : List (List Char × List Char)) : List ℚ :=
  rows.filterMap (fun r =>
    if r.1 ≠ [] ∧ r.2 ≠ [] ∧ r.1 ≠ cs "nan" ∧ r.2 ≠ cs "nan" then
      match parse_date_flexible du r.1, parse_date_flexible du r.2 with
      | some cd, some rd =>
        if dtLt cd rd then some ((tdTotalSeconds cd rd : ℚ) / 3600) else none
      | _, _ => none
    else none)

/-- `TACDataProcessor._get_response_time_analysis` over (date created,
date responded) row pairs. -/
def get_response_time_analysis (createdMapped respondedMapped : Bool)
    (du : List Char → Option PyDateTime) (rows : List (List Char × List Char)) :
    ResponseTimeAnalysis :=
  if createdMapped ∧ respondedMapped then
    match responseTimePairs du rows with
    | [] =>
      { available := false, avg_response_hours := 0, avg_response_days := 0
        total_cases_with_response := 0
        reason := some (cs "No valid response time data found") }
    | t :: ts =>
      let times := t :: ts
      let avg := times.sum / (times.length : ℚ)
      { available := true
        avg_response_hours := round1 avg
        avg_response_days := round1 (avg / 24)
        total_cases_with_response := times.length
        reason := none }
  else
    { available := false, avg_response_hours := 0, avg_response_days := 0
      total_cases_with_response := 0
      reason := some (cs "Missing date columns for response time analysis") }

/-! ## Summary metrics (`_get_summary_metrics`, `_calculate_average_ttr`) -/

/-- Exact-rational remainder `a mod b` with `b > 0` (Python float `%`). -/
def qmod (a b : ℚ) : ℚ := a - b * ⌊a / b⌋

/-- Python `max(a, b)` on two numbers (returns `a` on ties). -/
def pymax (a b : ℚ) : ℚ := if a < b then b else a

/-- `TACDataProcessor._calculate_average_ttr`: average the parsed positive
durations and render `DDd:HHh:MMm`. -/
def calculate_average_ttr (resMapped : Bool) (col : List (List Char)) : List Char :=
  if resMapped then
    let times := col.filterMap (fun v =>
      let t := clean_text v
      if t ≠ [] ∧ t ≠ cs "N/A" then
        let m := parse_resolution_time t
        if 0 < m then some m else none
      else none)
    match times with
    | [] => cs "N/A"
    | _ =>
      let avg : ℚ := ((times.sum : ℚ)) / (times.length : ℚ)
      let days := Int.toNat ⌊avg / (24 * 60)⌋
      let hours := Int.toNat ⌊qmod avg (24 * 60) / 60⌋
      let minutes := Int.toNat ⌊qmod avg 60⌋
      padNat 2 days ++ cs "d:" ++ padNat 2 hours ++ cs "h:" ++ padNat 2 minutes ++ cs "m"
  else cs "N/A"

/-- `_get_summary_metrics` result. -/
structure SummaryMetrics where
  total_cases : Nat
  date_range : DateRange
  status_breakdown : List (List Char × Nat)
  cases_per_month : ℚ
  avg_cases_per_day : ℚ
  average_ttr : List Char
deriving DecidableEq, Repr

/-- `TACDataProcessor._get_summary_metrics` over a table of `n` rows, its
date-created column, status column and resolution-time column. -/
def get_summary_metrics (dateMapped statusMapped resMapped : Bool)
    (du : List Char → Option PyDateTime) (n : Nat)
    (dateCol statusCol resCol : List (List Char)) : SummaryMetrics :=
  let dr := get_date_range dateMapped du dateCol
  let cpm : ℚ :=
    match dr.start, dr.stop with
    | some s, some e =>
      let months : ℚ := ((tdDays s e : ℚ) + 1) / (3044 / 100)
      (n : ℚ) / pymax months 1
    | _, _ => 0
  { total_cases := n
    date_range := dr
    status_breakdown := if statusMapped then tallyList statusCol else []
    cases_per_month := round1 cpm
    avg_cases_per_day := round1 ((n : ℚ) / pymax (dr.days : ℚ) 1)
    average_ttr := calculate_average_ttr resMapped resCol }

/-- A concrete nine-row date-created column whose parsed values range
exactly from 2024-01-05 to 2024-03-20. -/
def col9 : List (List Char) :=
  [cs "2024-01-05", cs "2024-03-20", cs "2024-02-01", cs "2024-02-02",
   cs "2024-02-03", cs "2024-02-04", cs "2024-02-05", cs "2024-02-06",
   cs "2024-02-07"]

/-! ## Helper lemmas: ASCII case folding -/

theorem toNat_ofNat_valid (n : Nat) (h : n.isValidChar) : (Char.ofNat n).toNat = n := by
  simp [Char.ofNat, h, Char.ofNatAux, Char.toNat, UInt32.toNat, BitVec.toNat_ofNatLt]

theorem char_toNat_inj {a b : Char} (h : a.toNat = b.toNat) : a = b := by
  rw [← Char.ofNat_toNat a, ← Char.ofNat_toNat b, h]

theorem lowerChar_toNat (c : Char) :
    (lowerChar c).toNat =
      if 65 ≤ c.toNat ∧ c.toNat ≤ 90 then c.toNat + 32 else c.toNat := by
  unfold lowerChar
  split_ifs with h
  · exact toNat_ofNat_valid _ (Or.inl (by omega))
  · rfl

theorem upperChar_toNat (c : Char) :
    (upperChar c).toNat =
      if 97 ≤ c.toNat ∧ c.toNat ≤ 122 then c.toNat - 32 else c.toNat := by
  unfold upperChar
  split_ifs with h
  · exact toNat_ofNat_valid _ (Or.inl (by omega))
  · rfl

theorem isDigit_lowerChar (c : Char) : isDigitChar (lowerChar c) = isDigitChar c := by
  simp only [isDigitChar, lowerChar_toNat]
  split_ifs with h
  · simp only [decide_eq_decide]; omega
  · rfl

theorem isAlpha_lowerChar (c : Char) : isAlphaChar (lowerChar c) = isAlphaChar c := by
  simp only [isAlphaChar, lowerChar_toNat]
  split_ifs with h
  · simp only [decide_eq_decide]; omega
  · rfl

theorem lowerChar_idem (c : Char) : lowerChar (lowerChar c) = lowerChar c := by
  apply char_toNat_inj
  simp only [lowerChar_toNat]
  split_ifs <;> omega

theorem upperChar_lowerChar (c : Char) : upperChar (lowerChar c) = upperChar c := by
  apply char_toNat_inj
  simp only [upperChar_toNat, lowerChar_toNat]
  split_ifs <;> omega

theorem lowerChar_of_not_alpha {c : Char} (h : isAlphaChar c = false) :
    lowerChar c = c := by
  unfold lowerChar
  rw [if_neg]
  simp only [isAlphaChar, decide_eq_false_iff_not, not_or] at h
  intro hc
  exact absurd hc h.1

/-! ## Helper lemmas: title casing and pattern search are blind to input
case -/

theorem titleAux_strLower (b : Bool) (s : List Char) :
    titleAux b (strLower s) = titleAux b s := by
  induction s generalizing b with
  | nil => rfl
  | cons c rest ih =>
    show titleAux b (lowerChar c :: strLower rest) = titleAux b (c :: rest)
    unfold titleAux
    rw [isAlpha_lowerChar]
    by_cases h : isAlphaChar c = true
    · rw [if_pos h, if_pos h, lowerChar_idem, upperChar_lowerChar, ih]
    · rw [if_neg h, if_neg h, lowerChar_of_not_alpha (eq_false_of_ne_true h), ih]

theorem pyTitle_strLower (s : List Char) : pyTitle (strLower s) = pyTitle s :=
  titleAux_strLower false s

theorem patAt_strLower (p s : List Char) : patAt p (strLower s) = patAt p s := by
  induction p generalizing s with
  | nil =>
    cases s with
    | nil => rfl
    | cons c r =>
      show patAt [] (lowerChar c :: strLower r) = patAt [] (c :: r)
      simp [patAt, isDigit_lowerChar]
  | cons pc ps ih =>
    cases s with
    | nil => rfl
    | cons c r =>
      show patAt (pc :: ps) (lowerChar c :: strLower r) = patAt (pc :: ps) (c :: r)
      simp [patAt, lowerChar_idem, ih]

theorem patSearch_strLower (p s : List Char) :
    patSearch p (strLower s) = patSearch p s := by
  induction s with
  | nil => rfl
  | cons c r ih =>
    show patSearch p (lowerChar c :: strLower r) = patSearch p (c :: r)
    unfold patSearch
    rw [ih]
    have : patAt p (lowerChar c :: strLower r) = patAt p (c :: r) := patAt_strLower p (c :: r)
    rw [this]

theorem matchesAnyBugPattern_strLower (v : List Char) :
    matchesAnyBugPattern (strLower v) = matchesAnyBugPattern v := by
  unfold matchesAnyBugPattern
  rw [patSearch_strLower, patSearch_strLower, patSearch_strLower, patSearch_strLower]

/-! ## Helper lemmas: tallies and association lists -/

theorem sumSnd_tallyInsert (k : List Char) (t : List (List Char × Nat)) :
    sumSnd (tallyInsert k t) = sumSnd t + 1 := by
  induction t with
  | nil => rfl
  | cons p rest ih =>
    obtain ⟨k2, n⟩ := p
    unfold tallyInsert
    split_ifs with h
    · simp [sumSnd]; omega
    · simp only [sumSnd, List.map_cons, List.sum_cons] at ih ⊢
      omega

theorem sumSnd_tally_fold (l : List (List Char)) (acc : List (List Char × Nat)) :
    sumSnd (l.foldl (fun a k => tallyInsert k a) acc) = sumSnd acc + l.length := by
  induction l generalizing acc with
  | nil => simp
  | cons c rest ih =>
    simp only [List.foldl_cons, List.length_cons]
    rw [ih, sumSnd_tallyInsert]
    omega

theorem sumSnd_tallyList (l : List (List Char)) : sumSnd (tallyList l) = l.length := by
  unfold tallyList
  rw [sumSnd_tally_fold]
  simp [sumSnd]

theorem length_filterMap_of_isSome {α β : Type} (f : α → Option β) (l : List α)
    (h : ∀ v ∈ l, (f v).isSome = true) : (l.filterMap f).length = l.length := by
  induction l with
  | nil => rfl
  | cons c rest ih =>
    have hc := h c (List.mem_cons_self c rest)
    obtain ⟨b, hb⟩ := Option.isSome_iff_exists.mp hc
    simp only [List.filterMap_cons, hb, List.length_cons]
    rw [ih (fun v hv => h v (List.mem_cons_of_mem c hv))]

theorem assocLookup_mem_values (m : List (List Char × List Char)) (k v : List Char)
    (h : assocLookup m k = some v) : v ∈ m.map Prod.snd := by
  induction m with
  | nil => simp [assocLookup] at h
  | cons p rest ih =>
    obtain ⟨k2, v2⟩ := p
    unfold assocLookup at h
    split_ifs at h with hk
    · simp only [Option.some.injEq] at h
      subst h
      exact List.mem_map_of_mem Prod.snd (List.mem_cons_self _ _)
    · exact List.mem_cons_of_mem _ (ih h)

/-! ## Claim C2 -/

/-- C2 counterexample: on a zero-row table with the severity column
mapped, `_get_severity_analysis` returns `available = True`, not
`available = False` as the claim states (the empty `value_counts` means
the percentage comprehension never divides, so no exception either). -/
theorem C2_counterexample : (get_severity_analysis true []).available = true := by decide

/-- C2 (amended): for an input table with zero rows whose ColumnMapping
contains the severity field, the severity analysis returns
`available = True` with empty counts and percentages and `total = 0`, and
no exception is raised (no division is performed, since the percentage map
iterates over the empty counts). -/
theorem C2_amended :
    get_severity_analysis true [] =
      { available := true, counts := [], percentages := [], total := 0, reason := none } := by
  decide

/-! ## Claim C5 -/

/-- C5 counterexample: the duration string "12d 3h 33m" parses to
12*1440 + 3*60 + 33 = 17493 minutes, not 17433 as the claim's numeral
says (the claim's own symbolic formula evaluates to 17493). -/
theorem C5_counterexample :
    parse_resolution_time (cs "12d 3h 33m") = 12 * 1440 + 3 * 60 + 33 ∧
    parse_resolution_time (cs "12d 3h 33m") ≠ 17433 := by decide

/-- C5 (amended): the resolution-time duration parser maps the input
string "12d 3h 33m" to exactly 12*1440 + 3*60 + 33 = 17493 total
minutes. -/
theorem C5_amended :
    parse_resolution_time (cs "12d 3h 33m") = 12 * 1440 + 3 * 60 + 33 := by decide

/-! ## Claim C6 -/

/-- C6: "AL-1234" is a bug case of type Alteon, "no value" is a non-bug
case, "CYCON-55" is a bug case of type CyberController (each value passes
through `clean_text` before classification, as in `_get_bug_analysis`);
and in general `_is_bug_case` holds exactly when the value matches one of
the case-insensitive patterns `AL-\d+`, `CYCON-\d+`, `BUG-\d+`, `DEF-\d+`
(the null-token early return only rejects values that cannot match
anyway). -/
theorem C6_bug_classification :
    is_bug_case (clean_text (cs "AL-1234")) = true ∧
    extract_bug_type (clean_text (cs "AL-1234")) = some (cs "Alteon") ∧
    is_bug_case (clean_text (cs "no value")) = false ∧
    is_bug_case (clean_text (cs "CYCON-55")) = true ∧
    extract_bug_type (clean_text (cs "CYCON-55")) = some (cs "CyberController") ∧
    ∀ v, is_bug_case v = matchesAnyBugPattern v := by
  refine ⟨by decide, by decide, by decide, by decide, by decide, ?_⟩
  intro v
  unfold is_bug_case
  split_ifs with h
  · rcases h with h | h
    · subst h; rfl
    · rw [← matchesAnyBugPattern_strLower v]
      rcases (by simpa using h : strLower v = cs "n/a" ∨ strLower v = cs "no value" ∨
          strLower v = cs "none" ∨ strLower v = cs "") with h | h | h | h <;>
        rw [h] <;> decide
  · rfl

/-! ## Claim C8 -/

/-- C8: for every input string, `parse_date_flexible` either returns a
parsed timestamp or returns `None`; it is a total function of its input
(the embedding of "never raises"), and for empty or null-like input it
returns `None` for every behaviour of the external last-resort parser,
i.e. without attempting any format. -/
theorem C8_parse_date_total (du : List Char → Option PyDateTime) (s : List Char) :
    ((s = [] ∨ strLower s ∈ [cs "nan", cs "none", cs "null", cs ""]) →
      parse_date_flexible du s = none) ∧
    (parse_date_flexible du s = none ∨ ∃ d, parse_date_flexible du s = some d) := by
  constructor
  · intro h
    unfold parse_date_flexible
    rw [if_pos h]
  · cases hp : parse_date_flexible du s with
    | none => exact Or.inl rfl
    | some d => exact Or.inr ⟨d, rfl⟩

/-- Witness for C8 at the concrete null-like input "nan" and the
conservative external-parser model. -/
theorem C8_witness :
    ((cs "nan" = [] ∨ strLower (cs "nan") ∈ [cs "nan", cs "none", cs "null", cs ""]) ∧
      parse_date_flexible duNone (cs "nan") = none) ∧
    parse_date_flexible duNone (cs "02/18/2025 10:56 AM") =
      some ⟨2025, 2, 18, 10, 56, 0⟩ :=
  ⟨⟨by decide, (C8_parse_date_total duNone (cs "nan")).1 (by decide)⟩, by decide⟩

/-! ## Helper lemmas: severity normalization -/

theorem pyTitle_severityValues :
    ∀ v ∈ severityMapping.map Prod.snd, pyTitle v ∈ canonicalSeverities := by decide

theorem clean_text_eq_strip (x : List Char) (h : clean_text x ≠ cs "N/A") :
    clean_text x = stripChars x := by
  simp only [clean_text] at h ⊢
  split_ifs at h ⊢ with h1 h2
  · exact absurd rfl h
  · exact absurd rfl h
  · rfl

/-- A recognized, non-null severity token normalizes to one of the four
canonical labels. -/
theorem normalize_mem_canonical (x : List Char) (h1 : ¬ severityNullish x)
    (h2 : (assocLookup severityMapping (strLower (clean_text x))).isSome = true) :
    normalize_severity x ∈ canonicalSeverities := by
  unfold normalize_severity
  rw [if_neg h1]
  obtain ⟨v, hv⟩ := Option.isSome_iff_exists.mp h2
  simp only [hv, Option.getD_some]
  exact pyTitle_severityValues v (assocLookup_mem_values _ _ _ hv)

/-! ## Claim C7 -/

/-- C7 counterexample: the null-like severity token "n/a" does not
normalize to "Unknown"; it falls through the guard (which checks only
"nan", "none", "null", "no value" and emptiness), is collapsed to "N/A" by
`clean_text`, misses the severity mapping, and is returned title-cased as
"N/A". -/
theorem C7_counterexample :
    normalize_severity (cs "n/a") = cs "N/A" ∧ cs "N/A" ≠ cs "Unknown" := by decide

/-- C7 (amended): the null-like severity tokens caught by the guard (the
empty string, "nan", "none", "null", "no value") normalize to "Unknown";
the remaining null-like tokens ("n/a", "na", "not available") normalize to
"N/A" via the `clean_text` sentinel, not to "Unknown"; every recognized
non-null token normalizes to one of the four canonical labels; and every
unrecognized non-null-like token passes through title-cased (whitespace-
stripped) unchanged. -/
theorem C7_amended :
    (∀ s, severityNullish s → normalize_severity s = cs "Unknown") ∧
    (normalize_severity (cs "") = cs "Unknown" ∧ normalize_severity (cs "nan") = cs "Unknown" ∧
      normalize_severity (cs "none") = cs "Unknown" ∧ normalize_severity (cs "null") = cs "Unknown" ∧
      normalize_severity (cs "no value") = cs "Unknown") ∧
    (normalize_severity (cs "n/a") = cs "N/A" ∧ normalize_severity (cs "na") = cs "N/A" ∧
      normalize_severity (cs "not available") = cs "N/A") ∧
    (∀ x, ¬ severityNullish x →
      (assocLookup severityMapping (strLower (clean_text x))).isSome = true →
      normalize_severity x ∈ canonicalSeverities) ∧
    (∀ x, ¬ severityNullish x →
      assocLookup severityMapping (strLower (clean_text x)) = none →
      clean_text x ≠ cs "N/A" →
      normalize_severity x = pyTitle (stripChars x)) := by
  refine ⟨?_, by decide, by decide, normalize_mem_canonical, ?_⟩
  · intro s h
    unfold normalize_severity
    rw [if_pos h]
  · intro x h1 h2 h3
    unfold normalize_severity
    rw [if_neg h1]
    simp only [h2, Option.getD_none]
    rw [pyTitle_strLower, clean_text_eq_strip x h3]

/-- Witness for C7 at the recognized token "critical" and the unrecognized
non-null token "urgent". -/
theorem C7_witness :
    (¬ severityNullish (cs "critical") ∧
      (assocLookup severityMapping (strLower (clean_text (cs "critical")))).isSome = true ∧
      normalize_severity (cs "critical") ∈ canonicalSeverities) ∧
    (¬ severityNullish (cs "urgent") ∧
      assocLookup severityMapping (strLower (clean_text (cs "urgent"))) = none ∧
      clean_text (cs "urgent") ≠ cs "N/A" ∧
      normalize_severity (cs "urgent") = pyTitle (stripChars (cs "urgent"))) :=
  ⟨⟨by decide, by decide, C7_amended.2.2.2.1 (cs "critical") (by decide) (by decide)⟩,
   ⟨by decide, by decide, by decide,
    C7_amended.2.2.2.2 (cs "urgent") (by decide) (by decide) (by decide)⟩⟩

/-! ## Claim C9 -/

/-- C9: severity normalization is idempotent on the recognized token set
(the non-null tokens whose cleaned, lowered form is a key of the severity
mapping): normalizing twice equals normalizing once. -/
theorem C9_idempotent (x : List Char) (h1 : ¬ severityNullish x)
    (h2 : (assocLookup severityMapping (strLower (clean_text x))).isSome = true) :
    normalize_severity (normalize_severity x) = normalize_severity x := by
  have hmem := normalize_mem_canonical x h1 h2
  rcases (by simpa [canonicalSeverities] using hmem :
      normalize_severity x = cs "1 - Critical" ∨ normalize_severity x = cs "2 - High" ∨
      normalize_severity x = cs "3 - Medium" ∨ normalize_severity x = cs "4 - Low")
    with h | h | h | h <;> rw [h] <;> decide

/-- Witness for C9 at the recognized token "critical". -/
theorem C9_witness :
    ¬ severityNullish (cs "critical") ∧
    (assocLookup severityMapping (strLower (clean_text (cs "critical")))).isSome = true ∧
    normalize_severity (normalize_severity (cs "critical")) =
      normalize_severity (cs "critical") :=
  ⟨by decide, by decide, C9_idempotent (cs "critical") (by decide) (by decide)⟩

/-! ## Claim C10 -/

theorem extract_isSome_of_bug (v : List Char) (hv : is_bug_case v = true) :
    (extract_bug_type v).isSome = true := by
  have hne : ¬ v = [] := by
    intro h
    subst h
    simp [is_bug_case] at hv
  unfold extract_bug_type
  rw [if_neg hne]
  split_ifs <;> rfl

/-- C10: every value classified as a bug case receives a non-null
bug-type label from `_extract_bug_type` (falling back to "Other" when no
known prefix matches), so for every input column the sum of the counts in
the `bug_types` tally equals the "Bug Cases" count of
`bug_vs_non_bug`. -/
theorem C10_bug_tally :
    (∀ v, is_bug_case v = true → (extract_bug_type v).isSome = true) ∧
    (∀ col, sumSnd (get_bug_analysis true col).bug_types =
      (get_bug_analysis true col).bug_cases) := by
  refine ⟨extract_isSome_of_bug, ?_⟩
  intro col
  simp only [get_bug_analysis, if_true, reduceIte]
  rw [sumSnd_tallyList]
  exact length_filterMap_of_isSome extract_bug_type _
    (fun v hv => extract_isSome_of_bug v (List.of_mem_filter hv))

/-- Witness for C10 at the concrete bug value "AL-1" and a one-row
table. -/
theorem C10_witness :
    is_bug_case (cs "AL-1") = true ∧
    (extract_bug_type (cs "AL-1")).isSome = true ∧
    sumSnd (get_bug_analysis true [cs "AL-1"]).bug_types =
      (get_bug_analysis true [cs "AL-1"]).bug_cases :=
  ⟨by decide, C10_bug_tally.1 (cs "AL-1") (by decide), C10_bug_tally.2 [cs "AL-1"]⟩

/-! ## Claim C1 -/

/-- C1 counterexample: the response-time analysis returns
`available = False` on a table whose ColumnMapping contains both required
date fields (both flags true) and whose single row even holds two valid
parseable dates — the response instant is not strictly after creation, so
no row qualifies and the analysis reports unavailability despite every
required mapped field being present.  This refutes "whenever all of its
required mapped fields are present, it returns available = true regardless
of the cell contents". -/
theorem C1_counterexample :
    (get_response_time_analysis true true duNone
      [(cs "2024-01-05", cs "2024-01-05")]).available = false ∧
    (get_response_time_analysis true true duNone
      [(cs "2024-01-05", cs "2024-01-05")]).reason =
      some (cs "No valid response time data found") := by decide

/-- C1 (amended): for the mapping-gated analyses (monthly trends,
severity, product, bug, internal-vs-external, queue, status, engineer and
case-owner assignment, escalation), the result has `available = false`
with a reason string exactly when the required mapped field is absent, and
`available = true` whenever it is present, regardless of cell contents.
The exceptions are: the customer analysis, which reports
`available = true` even when none of its (all optional) fields are mapped;
and the response-time, category and resolution analyses, which report
`available = false` with a reason also when their required fields are
mapped but no row yields valid data. -/
theorem C1_amended :
    (∀ m col, (get_severity_analysis m col).available = m) ∧
    (∀ col, (get_severity_analysis false col).reason = some (cs "No severity column found")) ∧
    (∀ m col, (get_bug_analysis m col).available = m) ∧
    (∀ col, (get_bug_analysis false col).reason = some (cs "No experienced bug column found")) ∧
    (∀ dm sm vm du rows, (get_monthly_trends dm sm vm du rows).available = dm) ∧
    (∀ sm vm du rows, (get_monthly_trends false sm vm du rows).reason =
      some (cs "No date created column found")) ∧
    (∀ m vm rows, (get_product_analysis m vm rows).available = m) ∧
    (∀ m col, (get_internal_external_analysis m col).available = m) ∧
    (∀ m col, (get_queue_analysis m col).available = m) ∧
    (∀ m col, (get_status_analysis m col).available = m) ∧
    (∀ m sm rows, (get_engineer_assignment m sm rows).available = m) ∧
    (∀ m sm rows, (get_case_owner_assignment m sm rows).available = m) ∧
    (∀ m col, (get_escalation_analysis m col).available = m) ∧
    (∀ cm nm cc nc, (get_customer_analysis cm nm cc nc).available = true) ∧
    (∀ cm rm du rows, (get_response_time_analysis cm rm du rows).available =
      (cm && rm && !(responseTimePairs du rows).isEmpty)) ∧
    (∀ m col, (get_category_analysis m col).available =
      (m && !(validCells col).isEmpty)) ∧
    (∀ m col, (get_resolution_analysis m col).available =
      (m && !(validCells col).isEmpty)) := by
  refine ⟨?_, ?_, ?_, ?_, ?_, ?_, ?_, ?_, ?_, ?_, ?_, ?_, ?_, ?_, ?_, ?_, ?_⟩
  · intro m col; cases m <;> simp [get_severity_analysis]
  · intro col; simp [get_severity_analysis]
  · intro m col; cases m <;> simp [get_bug_analysis]
  · intro col; simp [get_bug_analysis]
  · intro dm sm vm du rows; cases dm <;> simp [get_monthly_trends]
  · intro sm vm du rows; simp [get_monthly_trends]
  · intro m vm rows; cases m <;> simp [get_product_analysis]
  · intro m col; cases m <;> simp [get_internal_external_analysis, mkCountsAnalysis]
  · intro m col; cases m <;> simp [get_queue_analysis, mkCountsAnalysis]
  · intro m col; cases m <;> simp [get_status_analysis, mkCountsAnalysis]
  · intro m sm rows; cases m <;> simp [get_engineer_assignment, mkAssignAnalysis]
  · intro m sm rows; cases m <;> simp [get_case_owner_assignment, mkAssignAnalysis]
  · intro m col; cases m <;> simp [get_escalation_analysis]
  · intro cm nm cc nc; simp [get_customer_analysis]
  · intro cm rm du rows
    cases cm <;> cases rm <;>
      cases h : responseTimePairs du rows <;>
      simp [get_response_time_analysis, h]
  · intro m col
    cases m <;> cases h : validCells col <;>
      simp [get_category_analysis, mkFilteredCounts, h]
  · intro m col
    cases m <;> cases h : validCells col <;>
      simp [get_resolution_analysis, mkFilteredCounts, h]

/-! ## Helper lemmas: column mapping -/

/-- An exact-phase match witnesses a synonym variant whose lowered form
equals the lowered, stripped actual column name. -/
theorem exactMatchFor_sound (variants actuals : List (List Char)) (a : List Char)
    (h : exactMatchFor variants actuals = some a) :
    ∃ v ∈ variants, strLower (stripChars a) = strLower v := by
  induction variants with
  | nil => simp [exactMatchFor] at h
  | cons v vs ih =>
    unfold exactMatchFor at h
    cases hf : actuals.find? (fun x => strLower (stripChars x) = strLower v) with
    | some x =>
      rw [hf] at h
      simp only [Option.some.injEq] at h
      subst h
      exact ⟨v, List.mem_cons_self v vs, by simpa using List.find?_some hf⟩
    | none =>
      rw [hf] at h
      obtain ⟨w, hw, he⟩ := ih h
      exact ⟨w, List.mem_cons_of_mem v hw, he⟩

/-- Every entry of the exact-phase fold comes from the accumulator or from
a table row whose variants matched the entry's column. -/
theorem mem_mapFold (actuals : List (List Char))
    (t : List (List Char × List (List Char))) (acc : List (List Char × List Char))
    (p : List Char × List Char) (h : p ∈ t.foldl (mapStep actuals) acc) :
    p ∈ acc ∨ ∃ kv ∈ t, p.1 = kv.1 ∧ exactMatchFor kv.2 actuals = some p.2 := by
  induction t generalizing acc with
  | nil => exact Or.inl (by simpa using h)
  | cons kv rest ih =>
    simp only [List.foldl_cons] at h
    rcases ih (mapStep actuals acc kv) h with hin | ⟨kv2, hkv2, h1, h2⟩
    · unfold mapStep at hin
      cases he : exactMatchFor kv.2 actuals with
      | some a =>
        rw [he] at hin
        rcases List.mem_append.mp hin with hx | hx
        · exact Or.inl hx
        · have hpa : p = (kv.1, a) := by simpa using hx
          subst hpa
          exact Or.inr ⟨kv, List.mem_cons_self _ _, rfl, he⟩
      | none =>
        rw [he] at hin
        exact Or.inl hin
    · exact Or.inr ⟨kv2, List.mem_cons_of_mem _ hkv2, h1, h2⟩

/-- The exact-phase fold never duplicates a semantic key. -/
theorem keys_nodup_mapFold (actuals : List (List Char))
    (t : List (List Char × List (List Char))) (acc : List (List Char × List Char))
    (h1 : (acc.map Prod.fst).Nodup)
    (h2 : ∀ k ∈ acc.map Prod.fst, k ∉ t.map Prod.fst)
    (h3 : (t.map Prod.fst).Nodup) :
    ((t.foldl (mapStep actuals) acc).map Prod.fst).Nodup := by
  induction t generalizing acc with
  | nil => simpa using h1
  | cons kv rest ih =>
    simp only [List.foldl_cons]
    have h3' : (kv.1 :: rest.map Prod.fst).Nodup := by
      rw [List.map_cons] at h3
      exact h3
    have hkv_not_rest : kv.1 ∉ rest.map Prod.fst := (List.nodup_cons.mp h3').1
    have hrest_nodup : (rest.map Prod.fst).Nodup := (List.nodup_cons.mp h3').2
    apply ih
    · unfold mapStep
      cases he : exactMatchFor kv.2 actuals with
      | none => exact h1
      | some a =>
        rw [List.map_append]
        refine List.Nodup.append h1 (by simp) ?_
        intro x hx hy
        have hxk : x = kv.1 := by simpa using hy
        exact h2 x hx (by
          rw [List.map_cons, hxk]
          exact List.mem_cons_self _ _)
    · intro k hk
      unfold mapStep at hk
      cases he : exactMatchFor kv.2 actuals with
      | none =>
        rw [he] at hk
        intro hmem
        exact h2 k hk (by
          rw [List.map_cons]
          exact List.mem_cons_of_mem _ hmem)
      | some a =>
        rw [he, List.map_append] at hk
        rcases List.mem_append.mp hk with hx | hx
        · intro hmem
          exact h2 k hx (by
            rw [List.map_cons]
            exact List.mem_cons_of_mem _ hmem)
        · have hxx : k = kv.1 := by simpa using hx
          rw [hxx]
          exact hkv_not_rest
    · exact hrest_nodup

theorem expected_keys_nodup : (expected_columns.map Prod.fst).Nodup := by decide

/-- Distinct semantic fields have disjoint lowered synonym sets. -/
theorem expectedVariants_disjoint :
    ∀ kv1 ∈ expected_columns, ∀ kv2 ∈ expected_columns,
      kv1.1 ≠ kv2.1 → ∀ v1 ∈ kv1.2, ∀ v2 ∈ kv2.2, strLower v1 ≠ strLower v2 := by decide

theorem create_keys_nodup (actuals : List (List Char)) :
    ((create_column_mapping actuals).map Prod.fst).Nodup := by
  unfold create_column_mapping
  exact keys_nodup_mapFold actuals expected_columns [] (by simp) (by simp)
    expected_keys_nodup

theorem hasKey_false_not_mem (m : List (List Char × List Char)) (k : List Char)
    (h : hasKey m k = false) : k ∉ m.map Prod.fst := by
  intro hk
  obtain ⟨p, hp, he⟩ := List.mem_map.mp hk
  have : m.any (fun p => p.1 = k) = true := List.any_eq_true.mpr ⟨p, hp, by simp [he]⟩
  rw [hasKey] at h
  rw [this] at h
  cases h

theorem addFallback_keys_nodup (m : List (List Char × List Char))
    (actuals : List (List Char)) (key : List Char) (words : List (List Char))
    (h : (m.map Prod.fst).Nodup) :
    ((addFallback m actuals key words).map Prod.fst).Nodup := by
  unfold addFallback
  split_ifs with hk
  · exact h
  · cases hf : fallbackFind words actuals with
    | none => exact h
    | some c =>
      rw [List.map_append]
      refine List.Nodup.append h (by simp) ?_
      intro x hx hy
      have hxk : x = key := by simpa using hy
      subst hxk
      exact hasKey_false_not_mem m x (by simpa using hk) hx

/-- The exact-synonym phase never maps two semantic keys to the same
actual column: distinct keys have disjoint lowered synonym sets, and a
mapped column's lowered, stripped name lies in its key's synonym set. -/
theorem create_values_nodup (actuals : List (List Char)) :
    ((create_column_mapping actuals).map Prod.snd).Nodup := by
  have hkp : (create_column_mapping actuals).Pairwise (fun p q => p.1 ≠ q.1) :=
    List.pairwise_map.mp (create_keys_nodup actuals)
  have key_imp : ∀ p ∈ create_column_mapping actuals,
      ∀ q ∈ create_column_mapping actuals, p.1 ≠ q.1 → p.2 ≠ q.2 := by
    intro p hp q hq hne heq
    rcases mem_mapFold actuals expected_columns [] p
        (by simpa [create_column_mapping] using hp) with hx | ⟨kv1, hkv1, hp1, hp2⟩
    · simp at hx
    rcases mem_mapFold actuals expected_columns [] q
        (by simpa [create_column_mapping] using hq) with hx | ⟨kv2, hkv2, hq1, hq2⟩
    · simp at hx
    obtain ⟨v1, hv1, he1⟩ := exactMatchFor_sound _ _ _ hp2
    obtain ⟨v2, hv2, he2⟩ := exactMatchFor_sound _ _ _ hq2
    have hkne : kv1.1 ≠ kv2.1 := by
      rw [← hp1, ← hq1]
      exact hne
    rw [heq] at he1
    exact expectedVariants_disjoint kv1 hkv1 kv2 hkv2 hkne v1 hv1 v2 hv2
      (he1.symm.trans he2)
  exact List.pairwise_map.mpr (List.Pairwise.imp_of_mem
    (fun ha hb hr => key_imp _ ha _ hb hr) hkp)

/-! ## Claim C3 -/

/-- C3 counterexample: on the column set {"Internal Case", "Status",
"Date Created"}, the exact phase maps `internal_case` to "Internal Case"
and leaves `reference` unmapped; the essential-field fallback then maps
`reference` to the first column containing "case" — the same
"Internal Case" column — so one actual column serves two semantic keys and
the value list of the full mapping is not duplicate-free. -/
theorem C3_counterexample :
    ¬ ((column_mapping [cs "Internal Case", cs "Status", cs "Date Created"]).map
        Prod.snd).Nodup ∧
    assocLookup (column_mapping [cs "Internal Case", cs "Status", cs "Date Created"])
      (cs "reference") = some (cs "Internal Case") ∧
    assocLookup (column_mapping [cs "Internal Case", cs "Status", cs "Date Created"])
      (cs "internal_case") = some (cs "Internal Case") := by decide

/-- C3 (amended): for every input table, no semantic key is mapped to two
actual columns (the mapping's key list is duplicate-free, both after the
exact-synonym phase and after the essential-field fallback), and after the
exact-synonym phase no actual column is mapped by two distinct semantic
keys; the essential-field fallback, however, may map an essential key to a
column already serving another semantic key, so value-injectivity of the
full mapping can fail. -/
theorem C3_amended (actuals : List (List Char)) :
    ((column_mapping actuals).map Prod.fst).Nodup ∧
    ((create_column_mapping actuals).map Prod.fst).Nodup ∧
    ((create_column_mapping actuals).map Prod.snd).Nodup := by
  refine ⟨?_, create_keys_nodup actuals, create_values_nodup actuals⟩
  unfold column_mapping find_alternative_columns
  exact addFallback_keys_nodup _ _ _ _ (addFallback_keys_nodup _ _ _ _
    (addFallback_keys_nodup _ _ _ _ (create_keys_nodup actuals)))

/-! ## Claim C4

Mathlib marks the arithmetic of `ℚ` irreducible; computations on concrete
rationals below restore the default reducibility locally so that `decide`
can evaluate them. -/

section RatComputations

attribute [local semireducible] Rat.add Rat.mul Rat.inv Rat.sub

/-- C4 (amended): for every dataset whose parsed date_created values range
exactly from 2024-01-05 to 2024-03-20, the summary metric
`cases_per_month` equals N / ((75+1)/30.44) rounded to 1 decimal place —
the day difference of this range is 75 (2024 is a leap year), not the 74
the claim assumed, so the inclusive day count fed to the formula is
75+1. -/
theorem C4_amended (du : List Char → Option PyDateTime) (sm rm : Bool) (n : Nat)
    (dateCol statusCol resCol : List (List Char))
    (h1 : (get_date_range true du dateCol).start = some ⟨2024, 1, 5, 0, 0, 0⟩)
    (h2 : (get_date_range true du dateCol).stop = some ⟨2024, 3, 20, 0, 0, 0⟩) :
    (get_summary_metrics true sm rm du n dateCol statusCol resCol).cases_per_month
      = round1 ((n : ℚ) / (((75 : ℚ) + 1) / (3044 / 100))) := by
  unfold get_summary_metrics
  cases hdr : get_date_range true du dateCol with
  | mk st sp dy =>
    rw [hdr] at h1 h2
    have h1' : st = some ⟨2024, 1, 5, 0, 0, 0⟩ := h1
    have h2' : sp = some ⟨2024, 3, 20, 0, 0, 0⟩ := h2
    subst h1' h2'
    have ht : tdDays ⟨2024, 1, 5, 0, 0, 0⟩ ⟨2024, 3, 20, 0, 0, 0⟩ = 75 := by decide
    simp only [ht]
    have hp : pymax ((((75 : ℤ) : ℚ) + 1) / (3044 / 100)) 1
        = (((75 : ℤ) : ℚ) + 1) / (3044 / 100) := by decide
    rw [hp]
    norm_num

/-- Witness for C4 at the nine-row column `col9` (dates 2024-01-05 to
2024-03-20) and the conservative external-parser model. -/
theorem C4_witness :
    (get_date_range true duNone col9).start = some ⟨2024, 1, 5, 0, 0, 0⟩ ∧
    (get_date_range true duNone col9).stop = some ⟨2024, 3, 20, 0, 0, 0⟩ ∧
    (get_summary_metrics true false false duNone 9 col9 [] []).cases_per_month
      = round1 ((9 : ℚ) / (((75 : ℚ) + 1) / (3044 / 100))) :=
  ⟨by decide, by decide,
   C4_amended duNone false false 9 col9 [] [] (by decide) (by decide)⟩

set_option maxRecDepth 4000 in
/-- C4 counterexample: on the nine-row dataset `col9` with date range
2024-01-05..2024-03-20 the code computes `cases_per_month = 3.6`
(days difference 75, inclusive count 76), while the claim's formula
N / ((74+1)/30.44) rounds to 3.7 — the claim assumed a 74-day difference,
but February 2024 has 29 days. -/
theorem C4_counterexample :
    (get_summary_metrics true false false duNone 9 col9 [] []).cases_per_month = 18 / 5 ∧
    round1 ((9 : ℚ) / (((74 : ℚ) + 1) / (3044 / 100))) = 37 / 10 ∧
    ((18 : ℚ) / 5) ≠ 37 / 10 := by
  refine ⟨by decide, by decide, by norm_num⟩

end RatComputations

end TacReport
